import Mathlib

/-! Verification development for the Poolakey analytics helpers.

The repository consists of three Python modules:
* `mapper/purchase_analysis.py` — `PurchaseMapper` and the `PurchaseInfo`
  record it produces from a raw JSON purchase payload;
* `entity/subscription_manager.py` — `SubscriptionManager`, aggregate
  queries over purchases, SKUs and trial records;
* `exception/android_exception_manager.py` — `ExceptionManager`, report
  generation and CSV/JSON export of `AndroidException` records.

The embedding below models a raw purchase payload as an already-parsed
JSON object (an association list with distinct keys, as produced by
`json.loads`), machine numbers as exact rationals, and file output as the
value that would be written.
-/

/-- A parsed JSON value, as produced by Python's json.loads. -/
inductive JVal where
  | jnull : JVal
  | jbool : Bool → JVal
  | jnum : ℚ → JVal
  | jstr : String → JVal
deriving DecidableEq

/-- A parsed JSON object: the dictionary json.loads returns for a raw
purchase payload (keys are distinct). -/
abbrev RawPayload := List (String × JVal)

/-- Python's dict.get(k): the value stored at key k, if any. -/
def jget (d : RawPayload) (k : String) : Option JVal :=
  (d.find? (fun kv => kv.1 == k)).map (fun kv => kv.2)

/-- Python's `v == 0` on a JSON-decoded value: numbers compare
numerically and False == 0 holds, while None and strings are not 0. -/
def pyEqZero : JVal → Bool
  | JVal.jnum q => q == 0
  | JVal.jbool b => b == false
  | _ => false

/-- Purchase state enumeration from purchase_analysis.py. -/
inductive PurchaseState where
  | PURCHASED : PurchaseState
  | REFUNDED : PurchaseState
deriving DecidableEq

/-- The PurchaseInfo record built by PurchaseMapper.map_to_purchase_info.
Fields read with dict.get hold an optional JSON value; purchase_time
falls back to 0 via `data.get("purchaseTime", 0)`. -/
structure PurchaseInfo where
  order_id : Option JVal
  purchase_token : Option JVal
  payload : Option JVal
  package_name : Option JVal
  purchase_state : PurchaseState
  purchase_time : JVal
  product_id : Option JVal
  data_signature : String
  original_json : RawPayload
deriving DecidableEq

/-- The purchase-state branch of map_to_purchase_info:
PURCHASED when `data.get("purchaseState") == 0`, otherwise REFUNDED. -/
def purchase_state_of (d : RawPayload) : PurchaseState :=
  if ((jget d "purchaseState").map pyEqZero).getD false then
    PurchaseState.PURCHASED
  else
    PurchaseState.REFUNDED

/-- PurchaseMapper.map_to_purchase_info on the parsed payload. -/
def map_to_purchase_info (d : RawPayload) (data_signature : String) : PurchaseInfo :=
  { order_id := jget d "orderId"
    purchase_token := jget d "purchaseToken"
    payload := jget d "developerPayload"
    package_name := jget d "packageName"
    purchase_state := purchase_state_of d
    purchase_time := (jget d "purchaseTime").getD (JVal.jnum 0)
    product_id := jget d "productId"
    data_signature := data_signature
    original_json := d }

/-- Python's `not s.strip()`: the string is empty or all whitespace. -/
def isBlank (s : String) : Bool :=
  s.toList.all Char.isWhitespace

/-- PurchaseMapper.verify_purchase_signature: returns False when the
signature or the purchase data is blank, True otherwise; the public key
is never examined. -/
def verify_purchase_signature (purchase_data signature public_key : String) : Bool :=
  if isBlank signature || isBlank purchase_data then false else true

/-- Numeric view of a JSON value for Python comparisons (bools are ints). -/
def toNumQ : JVal → Option ℚ
  | JVal.jnum q => some q
  | JVal.jbool b => some (if b then 1 else 0)
  | _ => none

/-- Python `<` on JSON-decoded values, on the numeric fragment the code
exercises (purchase times are numbers). -/
def jvalLt (a b : JVal) : Bool :=
  match toNumQ a, toNumQ b with
  | some x, some y => x < y
  | _, _ => false

/-- PurchaseMapper.get_most_recent_purchase:
`max(purchases, key=lambda p: p.purchase_time, default=None)`.
Python's max keeps the first element among equals. -/
def get_most_recent_purchase (ps : List PurchaseInfo) : Option PurchaseInfo :=
  match ps with
  | [] => none
  | x :: xs =>
    some (xs.foldl (fun best p => if jvalLt best.purchase_time p.purchase_time then p else best) x)

/-- Value of a digit string read left to right (base 10). -/
def digitsVal (cs : List Char) : ℕ :=
  cs.foldl (fun a c => 10 * a + (c.toNat - Char.toNat (Char.ofNat 48))) 0

/-- Split a character list on the dot character, like str.split with
separator a dot. -/
def splitDot : List Char → List (List Char)
  | [] => [[]]
  | c :: rest =>
    let r := splitDot rest
    if c == Char.ofNat 46 then [] :: r
    else
      match r with
      | [] => [[c]]
      | g :: gs => (c :: g) :: gs

/-- Python float() restricted to strings made of digit and dot
characters: it succeeds exactly when the string holds at least one digit
and at most one dot, and then denotes the usual decimal value. -/
def pyFloat (s : String) : Option ℚ :=
  let cs := s.toList
  if cs.any Char.isDigit && decide (cs.count (Char.ofNat 46) ≤ 1) then
    match splitDot cs with
    | [ip] => some (digitsVal ip)
    | [ip, fp] =>
      some ((digitsVal ip : ℚ) + (digitsVal fp : ℚ) / (10 : ℚ) ^ fp.length)
    | _ => none
  else none

/-- The filter in revenue_estimation: keep digits and dots. -/
def stripDigitsDot (s : String) : String :=
  (s.toList.filter (fun c => c.isDigit || c == Char.ofNat 46)).asString

/-- SkuDetails record. Modelled from the spec: the SkuDetails class used
by subscription_manager.py is not present under src/; the spec gives it a
SKU identifier, a free-form price string, and a type string. -/
structure SkuDetails where
  sku : String
  price : String
  type : String
deriving DecidableEq

/-- PurchaseInfo record as consumed by SubscriptionManager. Modelled from
the spec: the purchase class (with its is_refunded method) referenced by
subscription_manager.py is not present under src/; the spec gives it a
product identifier, a purchase state and an epoch-millisecond time. -/
structure SMPurchaseInfo where
  product_id : String
  purchase_state : PurchaseState
  purchase_time : Int
deriving DecidableEq

/-- TrialSubscriptionInfo record. Modelled from the spec: the class is
not present under src/; the spec gives it an availability flag and a
trial length in days. -/
structure TrialSubscriptionInfo where
  is_available : Bool
  trial_period_days : ℕ
deriving DecidableEq

/-- Purchase.is_refunded. Modelled from the spec: the method is not
present under src/; per the spec's refund-ratio contract it tests whether
the purchase state is REFUNDED. -/
def is_refunded (p : SMPurchaseInfo) : Bool :=
  p.purchase_state == PurchaseState.REFUNDED

/-- SubscriptionManager.refund_ratio: 0 on an empty collection, else the
count of refunded purchases over the collection size. -/
def refund_ratio (ps : List SMPurchaseInfo) : ℚ :=
  if ps.isEmpty then 0
  else (ps.countP is_refunded : ℚ) / (ps.length : ℚ)

/-- SubscriptionManager.revenue_estimation: running total over the
purchases; each step strips the product id to digits and dots, converts
with float(), and on conversion failure the except branch skips the
purchase. -/
def revenue_estimation (ps : List SMPurchaseInfo) : ℚ :=
  ps.foldl
    (fun total p =>
      match pyFloat (stripDigitsDot p.product_id) with
      | some v => total + v
      | none => total)
    0

/-- The key of most_expensive_sku:
`float(''.join(filter(str.isdigit, s.price)) or 0)` — the digit
characters of the price read as a number, 0 when there are none. -/
def digitKey (s : SkuDetails) : ℕ :=
  digitsVal (s.price.toList.filter Char.isDigit)

/-- The key of least_expensive_sku:
`float(''.join(filter(str.isdigit, s.price)) or float('inf'))` — the
digit characters of the price read as a number, infinity when there are
none. -/
def leastKey (s : SkuDetails) : WithTop ℕ :=
  let ds := s.price.toList.filter Char.isDigit
  if ds.isEmpty then ⊤ else (digitsVal ds : WithTop ℕ)

/-- Ranking the spec describes for the SKU extrema, stated for comparison
with the code's keys: the number obtained by concatenating only the digit
characters of the price string. -/
def specPriceKey (s : SkuDetails) : ℕ :=
  digitsVal (s.price.toList.filter Char.isDigit)

/-- Python max(xs, key=k) over a nonempty list: fold keeping the first
element among equal keys. -/
def maxByFirst {α β : Type} [LinearOrder β] (key : α → β) (x : α) (xs : List α) : α :=
  xs.foldl (fun best s => if key best < key s then s else best) x

/-- Python min(xs, key=k) over a nonempty list: fold keeping the first
element among equal keys. -/
def minByFirst {α β : Type} [LinearOrder β] (key : α → β) (x : α) (xs : List α) : α :=
  xs.foldl (fun best s => if key s < key best then s else best) x

/-- SubscriptionManager.most_expensive_sku. -/
def most_expensive_sku (skus : List SkuDetails) : Option SkuDetails :=
  match skus with
  | [] => none
  | x :: xs => some (maxByFirst digitKey x xs)

/-- SubscriptionManager.least_expensive_sku. -/
def least_expensive_sku (skus : List SkuDetails) : Option SkuDetails :=
  match skus with
  | [] => none
  | x :: xs => some (minByFirst leastKey x xs)

/-- The sku-to-type lookup of refund_probability_by_type:
`{s.sku: s.type for s in self.skus}.get(pid, "unknown")`; with duplicate
SKU identifiers the later entry wins. -/
def sku_type_of (skus : List SkuDetails) (pid : String) : String :=
  match skus.reverse.find? (fun s => s.sku == pid) with
  | some s => s.type
  | none => "unknown"

/-- SubscriptionManager.refund_probability_by_type, read at key t: empty
dict when either collection is empty; otherwise each purchase becomes a
(type, refunded) row and groupby("type").mean() gives, for each type with
at least one row, the mean of its refunded flags. -/
def refund_probability_by_type (ps : List SMPurchaseInfo) (skus : List SkuDetails)
    (t : String) : Option ℚ :=
  if ps.isEmpty || skus.isEmpty then none
  else
    let rows := ps.map (fun p => (sku_type_of skus p.product_id, is_refunded p))
    let g := rows.filter (fun r => r.1 == t)
    if g.isEmpty then none
    else some ((g.countP (fun r => r.2) : ℚ) / (g.length : ℚ))

/-- SubscriptionManager.average_trial_days: 0 on an empty collection,
else the mean trial length. -/
def average_trial_days (ts : List TrialSubscriptionInfo) : ℚ :=
  if ts.isEmpty then 0
  else ((ts.map (fun t => (t.trial_period_days : ℚ))).sum) / (ts.length : ℚ)

/-- AndroidException record: name, message, type, and the timestamp
captured at construction (modelled as the ISO string it serializes to). -/
structure AndroidException where
  name : String
  message : String
  type : String
  timestamp : String
deriving DecidableEq

/-- The field names of AndroidException.to_dict, used as CSV header. -/
def csv_keys : List String := ["name", "message", "type", "timestamp"]

/-- One CSV row per exception, in to_dict field order. -/
def csv_row (e : AndroidException) : List String :=
  [e.name, e.message, e.type, e.timestamp]

/-- ExceptionManager.save_to_csv, modelled as the file content written:
none when the collection is empty (no file is touched), otherwise a
header row followed by one row per exception. -/
def save_to_csv (es : List AndroidException) : Option (List (List String)) :=
  if es.isEmpty then none
  else some (csv_keys :: es.map csv_row)

example : digitsVal ("999".toList) = 999 := by decide
example : pyFloat "" = none := by rfl
example : pyFloat "." = none := by rfl
example : pyFloat "1.2.3" = none := by rfl
example : stripDigitsDot "com.app.gold12" = "..12" := by decide
example : digitKey ⟨"a", "$19.99", "inapp"⟩ = 1999 := by decide
example : leastKey ⟨"a", "x", "inapp"⟩ = ⊤ := by decide
example : most_expensive_sku [⟨"a", "$9.99", "s"⟩, ⟨"b", "$19.99", "s"⟩]
    = some ⟨"b", "$19.99", "s"⟩ := by decide
example : least_expensive_sku [⟨"a", "x", "s"⟩, ⟨"b", "$5", "s"⟩]
    = some ⟨"b", "$5", "s"⟩ := by decide
example : refund_probability_by_type [⟨"p", PurchaseState.REFUNDED, 0⟩] [] "unknown" = none := by
  decide
example : refund_ratio [⟨"a", PurchaseState.PURCHASED, 0⟩, ⟨"b", PurchaseState.PURCHASED, 0⟩,
    ⟨"c", PurchaseState.REFUNDED, 0⟩, ⟨"d", PurchaseState.REFUNDED, 0⟩] = 1 / 2 := by
  rw [refund_ratio]
  have h : List.countP is_refunded [⟨"a", PurchaseState.PURCHASED, 0⟩,
      ⟨"b", PurchaseState.PURCHASED, 0⟩, ⟨"c", PurchaseState.REFUNDED, 0⟩,
      ⟨"d", PurchaseState.REFUNDED, 0⟩] = 2 := by decide
  simp only [h]
  norm_num

theorem maxByFirst_cons {α β : Type} [LinearOrder β] (key : α → β) (x y : α) (ys : List α) :
    maxByFirst key x (y :: ys) = maxByFirst key (if key x < key y then y else x) ys := rfl

theorem maxByFirst_mem {α β : Type} [LinearOrder β] (key : α → β) (x : α) (xs : List α) :
    maxByFirst key x xs ∈ x :: xs := by
  induction xs generalizing x with
  | nil => simp [maxByFirst]
  | cons y ys ih =>
    rw [maxByFirst_cons]
    rcases List.mem_cons.mp (ih (if key x < key y then y else x)) with h | h
    · rw [h]
      by_cases hxy : key x < key y <;> simp [hxy]
    · exact List.mem_cons_of_mem _ (List.mem_cons_of_mem _ h)

theorem le_maxByFirst {α β : Type} [LinearOrder β] (key : α → β) (x : α) (xs : List α) :
    ∀ a ∈ x :: xs, key a ≤ key (maxByFirst key x xs) := by
  induction xs generalizing x with
  | nil => intro a ha; simp at ha; simp [maxByFirst, ha]
  | cons y ys ih =>
    intro a ha
    rw [maxByFirst_cons]
    have hx : key x ≤ key (if key x < key y then y else x) := by
      by_cases hxy : key x < key y <;> simp [hxy]
      exact le_of_lt hxy
    have hy : key y ≤ key (if key x < key y then y else x) := by
      by_cases hxy : key x < key y <;> simp [hxy]
      exact le_of_not_lt hxy
    have hrest := ih (if key x < key y then y else x)
    have hbase := hrest _ (List.mem_cons_self _ _)
    rcases List.mem_cons.mp ha with h | h
    · subst h
      exact le_trans hx hbase
    · rcases List.mem_cons.mp h with h2 | h2
      · subst h2
        exact le_trans hy hbase
      · exact hrest _ (List.mem_cons_of_mem _ h2)

theorem minByFirst_cons {α β : Type} [LinearOrder β] (key : α → β) (x y : α) (ys : List α) :
    minByFirst key x (y :: ys) = minByFirst key (if key y < key x then y else x) ys := rfl

theorem minByFirst_mem {α β : Type} [LinearOrder β] (key : α → β) (x : α) (xs : List α) :
    minByFirst key x xs ∈ x :: xs := by
  induction xs generalizing x with
  | nil => simp [minByFirst]
  | cons y ys ih =>
    rw [minByFirst_cons]
    rcases List.mem_cons.mp (ih (if key y < key x then y else x)) with h | h
    · rw [h]
      by_cases hxy : key y < key x <;> simp [hxy]
    · exact List.mem_cons_of_mem _ (List.mem_cons_of_mem _ h)

theorem minByFirst_le {α β : Type} [LinearOrder β] (key : α → β) (x : α) (xs : List α) :
    ∀ a ∈ x :: xs, key (minByFirst key x xs) ≤ key a := by
  induction xs generalizing x with
  | nil => intro a ha; simp at ha; simp [minByFirst, ha]
  | cons y ys ih =>
    intro a ha
    rw [minByFirst_cons]
    have hx : key (if key y < key x then y else x) ≤ key x := by
      by_cases hxy : key y < key x <;> simp [hxy]
      exact le_of_lt hxy
    have hy : key (if key y < key x then y else x) ≤ key y := by
      by_cases hxy : key y < key x <;> simp [hxy]
      exact le_of_not_lt hxy
    have hrest := ih (if key y < key x then y else x)
    have hbase := hrest _ (List.mem_cons_self _ _)
    rcases List.mem_cons.mp ha with h | h
    · subst h
      exact le_trans hbase hx
    · rcases List.mem_cons.mp h with h2 | h2
      · subst h2
        exact le_trans hbase hy
      · exact hrest _ (List.mem_cons_of_mem _ h2)

theorem revenue_estimation_fold (ps : List SMPurchaseInfo) (acc : ℚ) :
    ps.foldl
      (fun total p =>
        match pyFloat (stripDigitsDot p.product_id) with
        | some v => total + v
        | none => total)
      acc
    = acc + (ps.map (fun p => (pyFloat (stripDigitsDot p.product_id)).getD 0)).sum := by
  induction ps generalizing acc with
  | nil => simp
  | cons p ps ih =>
    rcases h : pyFloat (stripDigitsDot p.product_id) with _ | v
    · simp only [List.foldl_cons, List.map_cons, List.sum_cons, h, Option.getD_none]
      rw [ih]
      ring
    · simp only [List.foldl_cons, List.map_cons, List.sum_cons, h, Option.getD_some]
      rw [ih]
      ring

example : purchase_state_of [("purchaseState", JVal.jnum 0)] = PurchaseState.PURCHASED := by decide
example : purchase_state_of [("purchaseState", JVal.jnum 1)] = PurchaseState.REFUNDED := by decide
example : purchase_state_of [] = PurchaseState.REFUNDED := by decide
example : verify_purchase_signature "data" "sig" "key" = true := by decide
example : verify_purchase_signature "  " "sig" "key" = false := by decide

theorem leastKey_eq_of_digits (s : SkuDetails)
    (h : s.price.toList.filter Char.isDigit ≠ []) :
    leastKey s = (specPriceKey s : WithTop ℕ) := by
  rw [leastKey, specPriceKey]
  rw [if_neg]
  intro hc
  exact h (List.isEmpty_iff.mp hc)

/-- C1 counterexample: on the non-empty purchase data "data" and
non-empty signature "sig", verify_purchase_signature reports success,
contradicting the claim that it never reports success for non-empty
inputs. -/
theorem c1_counterexample :
    verify_purchase_signature "data" "sig" "key" = true
    ∧ "data" ≠ "" ∧ "sig" ≠ "" := by
  refine ⟨by decide, by decide, by decide⟩

/-- C1 (amended): verify_purchase_signature performs no cryptographic
verification — its result never depends on the public key — and it
returns failure exactly when the signature or the purchase data is blank,
reporting success whenever both are non-blank. -/
theorem c1_verify_placeholder (d s k k2 : String) :
    (verify_purchase_signature d s k = false ↔ (isBlank s = true ∨ isBlank d = true))
    ∧ verify_purchase_signature d s k = verify_purchase_signature d s k2 := by
  constructor
  · rw [verify_purchase_signature]
    by_cases hs : isBlank s <;> by_cases hd : isBlank d <;> simp [hs, hd]
  · rfl

/-- C3: for a payload whose purchaseState field is present with value v,
the mapped record's state is PURCHASED exactly when v equals 0 in the
Python sense, and REFUNDED for any other value. -/
theorem c3_purchase_state (d : RawPayload) (sig : String) (v : JVal)
    (h : jget d "purchaseState" = some v) :
    ((map_to_purchase_info d sig).purchase_state = PurchaseState.PURCHASED
      ↔ pyEqZero v = true)
    ∧ ((map_to_purchase_info d sig).purchase_state = PurchaseState.REFUNDED
      ↔ pyEqZero v = false) := by
  have hst : (map_to_purchase_info d sig).purchase_state = purchase_state_of d := rfl
  rw [hst, purchase_state_of, h]
  cases hv : pyEqZero v <;> simp [hv]

/-- C3 witness: purchaseState 0 maps to PURCHASED and purchaseState 1
maps to REFUNDED. -/
theorem c3_purchase_state_witness :
    (map_to_purchase_info [("purchaseState", JVal.jnum 0)] "sig").purchase_state
        = PurchaseState.PURCHASED
    ∧ (map_to_purchase_info [("purchaseState", JVal.jnum 1)] "sig").purchase_state
        = PurchaseState.REFUNDED := by
  constructor
  · exact (c3_purchase_state _ "sig" (JVal.jnum 0) (by decide)).1.mpr (by decide)
  · exact (c3_purchase_state _ "sig" (JVal.jnum 1) (by decide)).2.mpr (by decide)

/-- C6 counterexample: a payload missing purchaseState maps to REFUNDED,
whereas the claimed default value 0 would map to PURCHASED — a missing
purchaseState does not behave as the default value 0. -/
theorem c6_counterexample :
    (map_to_purchase_info [("purchaseTime", JVal.jnum 5)] "s").purchase_state
        = PurchaseState.REFUNDED
    ∧ (map_to_purchase_info [("purchaseTime", JVal.jnum 5), ("purchaseState", JVal.jnum 0)]
        "s").purchase_state = PurchaseState.PURCHASED := by
  constructor <;> decide

/-- C6 (amended): recognized fields missing from the payload default to
nothing, a missing purchaseTime defaults to 0, and a missing
purchaseState yields REFUNDED — it behaves as a non-zero value, not as
the default 0. -/
theorem c6_missing_fields (d : RawPayload) (sig : String) :
    (jget d "orderId" = none → (map_to_purchase_info d sig).order_id = none)
    ∧ (jget d "purchaseToken" = none → (map_to_purchase_info d sig).purchase_token = none)
    ∧ (jget d "developerPayload" = none → (map_to_purchase_info d sig).payload = none)
    ∧ (jget d "packageName" = none → (map_to_purchase_info d sig).package_name = none)
    ∧ (jget d "productId" = none → (map_to_purchase_info d sig).product_id = none)
    ∧ (jget d "purchaseTime" = none → (map_to_purchase_info d sig).purchase_time = JVal.jnum 0)
    ∧ (jget d "purchaseState" = none →
        (map_to_purchase_info d sig).purchase_state = PurchaseState.REFUNDED) := by
  refine ⟨?_, ?_, ?_, ?_, ?_, ?_, ?_⟩ <;> intro h <;>
    simp [map_to_purchase_info, purchase_state_of, h]

/-- C6 witness: on the empty payload every recognized field takes its
default — nothing for the string-like fields, 0 for purchaseTime, and
REFUNDED for the purchase state. -/
theorem c6_missing_fields_witness :
    (map_to_purchase_info [] "s").order_id = none
    ∧ (map_to_purchase_info [] "s").purchase_token = none
    ∧ (map_to_purchase_info [] "s").payload = none
    ∧ (map_to_purchase_info [] "s").package_name = none
    ∧ (map_to_purchase_info [] "s").product_id = none
    ∧ (map_to_purchase_info [] "s").purchase_time = JVal.jnum 0
    ∧ (map_to_purchase_info [] "s").purchase_state = PurchaseState.REFUNDED := by
  have h := c6_missing_fields [] "s"
  exact ⟨h.1 rfl, h.2.1 rfl, h.2.2.1 rfl, h.2.2.2.1 rfl, h.2.2.2.2.1 rfl,
    h.2.2.2.2.2.1 rfl, h.2.2.2.2.2.2 rfl⟩

/-- C8: on empty collections refund_ratio and average_trial_days return
0, and most_expensive_sku, least_expensive_sku and
get_most_recent_purchase return nothing. -/
theorem c8_empty_collections :
    refund_ratio [] = 0
    ∧ average_trial_days [] = 0
    ∧ most_expensive_sku [] = none
    ∧ least_expensive_sku [] = none
    ∧ get_most_recent_purchase [] = none := by
  exact ⟨rfl, rfl, rfl, rfl, rfl⟩

/-- C9: save_to_csv writes no file at all on an empty collection, and on
a non-empty collection writes the header row followed by one row per
exception. -/
theorem c9_save_to_csv :
    save_to_csv [] = none
    ∧ ∀ es : List AndroidException, es ≠ [] →
        save_to_csv es = some (csv_keys :: es.map csv_row)
        ∧ (es.map csv_row).length = es.length := by
  refine ⟨rfl, ?_⟩
  intro es hes
  match es, hes with
  | e :: es, _ => exact ⟨rfl, by simp⟩

/-- C9 witness: a one-exception collection is written as the header row
plus that exception's row. -/
theorem c9_save_to_csv_witness :
    save_to_csv [⟨"DisconnectException", "Bazaar service disconnected",
        "IllegalStateException", "2024-01-01T00:00:00"⟩]
      = some [csv_keys, ["DisconnectException", "Bazaar service disconnected",
        "IllegalStateException", "2024-01-01T00:00:00"]] := by
  exact (c9_save_to_csv.2 [⟨"DisconnectException", "Bazaar service disconnected",
    "IllegalStateException", "2024-01-01T00:00:00"⟩] (by decide)).1

/-- C2 counterexample: with SKU prices "x" (no digits) and "$5",
least_expensive_sku returns the "$5" SKU even though the digit-free SKU
has the strictly smaller digit-concatenation number — the claim's
universal minimisation property fails. -/
theorem c2_counterexample :
    least_expensive_sku [⟨"a", "x", "s"⟩, ⟨"b", "$5", "s"⟩] = some ⟨"b", "$5", "s"⟩
    ∧ specPriceKey ⟨"a", "x", "s"⟩ < specPriceKey ⟨"b", "$5", "s"⟩ := by
  constructor <;> decide

/-- C2 (amended): on a non-empty SKU collection in which every price
string contains at least one digit, most_expensive_sku returns a SKU
maximising — and least_expensive_sku one minimising — the number obtained
by concatenating only the digit characters of the price string. -/
theorem c2_extrema (skus : List SkuDetails) (hne : skus ≠ [])
    (hdig : ∀ s ∈ skus, s.price.toList.filter Char.isDigit ≠ []) :
    (∃ m ∈ skus, most_expensive_sku skus = some m
      ∧ ∀ s ∈ skus, specPriceKey s ≤ specPriceKey m)
    ∧ (∃ l ∈ skus, least_expensive_sku skus = some l
      ∧ ∀ s ∈ skus, specPriceKey l ≤ specPriceKey s) := by
  match skus, hne with
  | x :: xs, _ =>
    constructor
    · refine ⟨maxByFirst digitKey x xs, maxByFirst_mem _ _ _, rfl, ?_⟩
      intro s hs
      exact le_maxByFirst digitKey x xs s hs
    · refine ⟨minByFirst leastKey x xs, minByFirst_mem _ _ _, rfl, ?_⟩
      intro s hs
      have h1 := minByFirst_le leastKey x xs s hs
      have hml : minByFirst leastKey x xs ∈ x :: xs := minByFirst_mem _ _ _
      rw [leastKey_eq_of_digits _ (hdig _ hml), leastKey_eq_of_digits _ (hdig _ hs)] at h1
      exact_mod_cast h1

/-- C2 witness: given exactly the SKUs priced "$9.99" and "$19.99",
most_expensive_sku returns the "$19.99" SKU, a maximiser of the
digit-concatenation number. -/
theorem c2_extrema_witness :
    most_expensive_sku [⟨"p1", "$9.99", "inapp"⟩, ⟨"p2", "$19.99", "inapp"⟩]
        = some ⟨"p2", "$19.99", "inapp"⟩
    ∧ ∃ m ∈ ([⟨"p1", "$9.99", "inapp"⟩, ⟨"p2", "$19.99", "inapp"⟩] : List SkuDetails),
        most_expensive_sku [⟨"p1", "$9.99", "inapp"⟩, ⟨"p2", "$19.99", "inapp"⟩] = some m
        ∧ ∀ s ∈ ([⟨"p1", "$9.99", "inapp"⟩, ⟨"p2", "$19.99", "inapp"⟩] : List SkuDetails),
            specPriceKey s ≤ specPriceKey m := by
  exact ⟨by decide, (c2_extrema _ (by decide) (by decide)).1⟩

/-- C10: a SKU whose price has no digit characters is keyed 0 by
most_expensive_sku and positive infinity by least_expensive_sku, so the
two extrema rank it inconsistently; and whenever the collection also
holds a SKU with a positive digit-extracted value, least_expensive_sku
never returns the digit-free SKU. -/
theorem c10_digit_free_keys (skus : List SkuDetails) (s s2 r : SkuDetails)
    (hs : s ∈ skus) (hnd : s.price.toList.filter Char.isDigit = [])
    (hs2 : s2 ∈ skus) (hpos : 0 < specPriceKey s2)
    (hr : least_expensive_sku skus = some r) :
    digitKey s = 0 ∧ leastKey s = ⊤ ∧ r ≠ s := by
  have hk0 : digitKey s = 0 := by rw [digitKey, hnd]; rfl
  have hktop : leastKey s = ⊤ := by
    rw [leastKey, if_pos (List.isEmpty_iff.mpr hnd)]
  refine ⟨hk0, hktop, ?_⟩
  match skus, hr with
  | x :: xs, hr =>
    have hrm : minByFirst leastKey x xs = r := by
      have : some (minByFirst leastKey x xs) = some r := hr
      exact Option.some.inj this
    have hds2 : s2.price.toList.filter Char.isDigit ≠ [] := by
      intro hc
      rw [specPriceKey, hc] at hpos
      exact absurd hpos (by decide)
    have h2 : leastKey s2 ≠ ⊤ := by
      rw [leastKey_eq_of_digits s2 hds2]
      exact WithTop.coe_ne_top
    intro heq
    have h1 : leastKey (minByFirst leastKey x xs) ≤ leastKey s2 :=
      minByFirst_le leastKey x xs s2 hs2
    rw [hrm, heq, hktop] at h1
    exact h2 (top_le_iff.mp h1)

/-- C10 witness: in the collection with prices "x" (digit-free) and "$5",
the digit-free SKU is keyed 0 by the max key and infinity by the min key,
and least_expensive_sku does not return it. -/
theorem c10_digit_free_keys_witness :
    digitKey ⟨"a", "x", "t"⟩ = 0 ∧ leastKey ⟨"a", "x", "t"⟩ = ⊤
    ∧ (⟨"b", "$5", "t"⟩ : SkuDetails) ≠ ⟨"a", "x", "t"⟩ := by
  exact c10_digit_free_keys [⟨"a", "x", "t"⟩, ⟨"b", "$5", "t"⟩]
    ⟨"a", "x", "t"⟩ ⟨"b", "$5", "t"⟩ ⟨"b", "$5", "t"⟩
    (by decide) (by decide) (by decide) (by decide) (by decide)

/-- C4: refund_ratio is 0 on the empty collection and otherwise the
fraction of purchases whose state is REFUNDED. -/
theorem c4_refund_ratio :
    refund_ratio [] = 0
    ∧ ∀ ps : List SMPurchaseInfo, ps ≠ [] →
      refund_ratio ps
        = ((ps.filter (fun p => p.purchase_state == PurchaseState.REFUNDED)).length : ℚ)
          / (ps.length : ℚ) := by
  refine ⟨rfl, ?_⟩
  intro ps hps
  match ps, hps with
  | p :: ps, _ =>
    rw [refund_ratio, if_neg (by simp), List.countP_eq_length_filter]
    rfl

/-- C4 witness: on 2 PURCHASED and 2 REFUNDED purchases the refund ratio
is 0.5. -/
theorem c4_refund_ratio_witness :
    refund_ratio [⟨"a", PurchaseState.PURCHASED, 0⟩, ⟨"b", PurchaseState.PURCHASED, 0⟩,
      ⟨"c", PurchaseState.REFUNDED, 0⟩, ⟨"d", PurchaseState.REFUNDED, 0⟩] = 1 / 2 := by
  rw [c4_refund_ratio.2 _ (by decide)]
  have h : (List.filter (fun p => p.purchase_state == PurchaseState.REFUNDED)
      ([⟨"a", PurchaseState.PURCHASED, 0⟩, ⟨"b", PurchaseState.PURCHASED, 0⟩,
        ⟨"c", PurchaseState.REFUNDED, 0⟩, ⟨"d", PurchaseState.REFUNDED, 0⟩]
        : List SMPurchaseInfo)).length = 2 := by
    decide
  have h2 : (([⟨"a", PurchaseState.PURCHASED, 0⟩, ⟨"b", PurchaseState.PURCHASED, 0⟩,
      ⟨"c", PurchaseState.REFUNDED, 0⟩, ⟨"d", PurchaseState.REFUNDED, 0⟩]
      : List SMPurchaseInfo)).length = 4 := rfl
  rw [h, h2]
  norm_num

/-- C7: revenue_estimation is the sum, over the purchases, of the value
float() gives for the digit-and-dot characters of the product identifier,
with every unparsable identifier contributing nothing; the function is
total, so no error is raised. -/
theorem c7_revenue_estimation (ps : List SMPurchaseInfo) :
    revenue_estimation ps
      = (ps.map (fun p => (pyFloat (stripDigitsDot p.product_id)).getD 0)).sum := by
  rw [revenue_estimation, revenue_estimation_fold]
  simp

theorem isEmpty_map_eq {α β : Type} (f : α → β) (l : List α) :
    (l.map f).isEmpty = l.isEmpty := by
  cases l <;> rfl

theorem sku_type_of_unmatched (skus : List SkuDetails) (pid : String)
    (h : ∀ s ∈ skus, s.sku ≠ pid) :
    sku_type_of skus pid = "unknown" := by
  rw [sku_type_of]
  have hf : skus.reverse.find? (fun s => s.sku == pid) = none := by
    rw [List.find?_eq_none]
    intro s hs
    simpa using h s (List.mem_reverse.mp hs)
  rw [hf]

/-- C5 counterexample: a collection holding one purchase whose product
identifier matches no SKU, together with the empty SKU collection, yields
no "unknown" entry at all — the guard returns the empty mapping, so the
purchase does not contribute to an "unknown" entry. -/
theorem c5_counterexample :
    refund_probability_by_type [⟨"com.x", PurchaseState.PURCHASED, 0⟩] [] "unknown" = none
    ∧ sku_type_of [] "com.x" = "unknown" := by
  constructor <;> rfl

/-- C5 (amended): when both collections are non-empty,
refund_probability_by_type maps each SKU type with at least one purchase
to the mean refund rate among the purchases whose product identifier
looks up to that type, and every purchase whose product identifier has no
matching SKU is bucketed under "unknown", which therefore gets an entry. -/
theorem c5_refund_probability (ps : List SMPurchaseInfo) (skus : List SkuDetails)
    (hps : ps ≠ []) (hsk : skus ≠ []) :
    (∀ t : String,
      refund_probability_by_type ps skus t =
        (if (ps.filter (fun p => sku_type_of skus p.product_id == t)).isEmpty then none
         else some
           (((ps.filter (fun p => sku_type_of skus p.product_id == t)).countP is_refunded : ℚ)
            / ((ps.filter (fun p => sku_type_of skus p.product_id == t)).length : ℚ))))
    ∧ ∀ p ∈ ps, (∀ s ∈ skus, s.sku ≠ p.product_id) →
        ∃ q, refund_probability_by_type ps skus "unknown" = some q := by
  have hguard : (ps.isEmpty || skus.isEmpty) = false := by
    simp [List.isEmpty_eq_false, hps, hsk]
  have hmain : ∀ t : String,
      refund_probability_by_type ps skus t =
        (if (ps.filter (fun p => sku_type_of skus p.product_id == t)).isEmpty then none
         else some
           (((ps.filter (fun p => sku_type_of skus p.product_id == t)).countP is_refunded : ℚ)
            / ((ps.filter (fun p => sku_type_of skus p.product_id == t)).length : ℚ))) := by
    intro t
    rw [refund_probability_by_type]
    simp only [hguard, Bool.false_eq_true, if_false]
    rw [List.filter_map, isEmpty_map_eq, List.countP_map, List.length_map]
    rfl
  refine ⟨hmain, ?_⟩
  intro p hp hno
  have hu : sku_type_of skus p.product_id = "unknown" :=
    sku_type_of_unmatched skus p.product_id hno
  have hmem : p ∈ ps.filter (fun p2 => sku_type_of skus p2.product_id == "unknown") := by
    rw [List.mem_filter]
    exact ⟨hp, by simp [hu]⟩
  have hne2 : (ps.filter (fun p2 => sku_type_of skus p2.product_id == "unknown")).isEmpty
      = false := by
    rw [List.isEmpty_eq_false]
    exact List.ne_nil_of_mem hmem
  rw [hmain "unknown", hne2]
  simp only [Bool.false_eq_true, if_false]
  exact ⟨_, rfl⟩

/-- C5 witness: one refunded purchase matching no SKU, one SKU — the
"unknown" bucket receives an entry. -/
theorem c5_refund_probability_witness :
    ∃ q, refund_probability_by_type [⟨"nope", PurchaseState.REFUNDED, 7⟩]
      [⟨"a", "$1", "inapp"⟩] "unknown" = some q := by
  exact (c5_refund_probability [⟨"nope", PurchaseState.REFUNDED, 7⟩] [⟨"a", "$1", "inapp"⟩]
    (by decide) (by decide)).2 ⟨"nope", PurchaseState.REFUNDED, 7⟩ (by decide) (by decide)
